import Mathlib

/-!
Shallow embedding of the core client runtime of the `project-freta` repository
(Rust), covering:

- `src/client/backend/auth.rs`   : credential acquisition and refresh (`Auth`)
- `src/client/backend/mod.rs`    : response classification in `Backend::execute_raw`
- `src/client/backend/azure_blobs.rs` : `blob_upload` block sizing
- `src/client/mod.rs`            : `images_list` pagination and `images_monitor` polling
- `src/client/config.rs`         : `Config::save`
- `examples/webhook-receiver.rs` : constant-time `compare`

Network and disk are modelled as oracles: the identity provider is a record of
response functions (`IdP`), the paginated server and the polled job resource
are scripts (lists) of responses consumed in order, and the local filesystem
is an explicit record of the two files the client touches.  Timestamps
(`time::OffsetDateTime`) are modelled as `Int` seconds; byte strings as
`List Nat`; `u64` arithmetic in `blob_upload` as `Nat` (the involved values
never approach `2^64`, and `/` is euclidean division in both).
-/

namespace Freta

/-! ## Configuration (src/client/config.rs) -/

/-- Modelled from the spec of the `url` crate (the WHATWG URL standard),
which `Config` uses for `api_url` and which is not part of this repository:
a parsed http/https URL, restricted to the components the repository's
configurations carry (scheme, host, optional port, path).  The WHATWG parser
never leaves a special-scheme URL's path empty: parsing
"http://localhost:7071" yields the single path segment "" (the path "/"), so
every `Url` value carries a slash-prefixed path when serialized. -/
structure Url where
  scheme : String
  host : String
  port : Option Nat
  path_segments : List String
deriving Repr, DecidableEq

/-- Modelled from the spec of the `url` crate: `url::Url::to_string()`, the
WHATWG serialization `scheme "://" host [":" port] "/" segments`.  The path
part always begins with "/" (for the parsed "http://localhost:7071" the
serialization is "http://localhost:7071/"). -/
def Url.to_string (u : Url) : String :=
  u.scheme ++ "://" ++ u.host ++
    (match u.port with
     | some p => ":" ++ toString p
     | Option.none => "") ++
    "/" ++ String.intercalate "/" u.path_segments

/-- Model of `Config` (config.rs).  `ignore_login_cache` is the field
referenced by `auth.rs` (set by the CLI). -/
structure Config where
  api_url : Url
  client_id : String
  tenant_id : String
  client_secret : Option String
  scope : Option String
  ignore_login_cache : Bool
deriving Repr, DecidableEq

/-! ## Authentication (src/client/backend/auth.rs) -/

/-- `LOCAL_DEVELOPMENT_ENDPOINT` from auth.rs line 23. -/
def LOCAL_DEVELOPMENT_ENDPOINT : String := "http://localhost:7071"

/-- Model of `enum TokenType` (auth.rs): `ClientCredentials((AccessToken, Secret))`,
`DeviceCode((AccessToken, AccessToken))`, `None`. `AccessToken` and `Secret`
are modelled as strings. -/
inductive TokenType where
  | clientCredentials (access_token : String) (secret : String)
  | deviceCode (access_token : String) (refresh_tok : String)
  | none
deriving Repr, DecidableEq

/-- The variant (constructor tag) of a `TokenType`, used to state the
case-preservation invariant of refresh. -/
inductive TokenVariant where
  | clientCredentials
  | deviceCode
  | unauthenticated
deriving Repr, DecidableEq

/-- Project a `TokenType` to its variant. -/
def TokenType.variant : TokenType → TokenVariant
  | TokenType.clientCredentials _ _ => TokenVariant.clientCredentials
  | TokenType.deviceCode _ _ => TokenVariant.deviceCode
  | TokenType.none => TokenVariant.unauthenticated

/-- Model of `struct Auth` (auth.rs): client id, token, absolute expiry. -/
structure Auth where
  client_id : String
  token : TokenType
  expires_on : Int
deriving Repr, DecidableEq

/-- Identity-provider oracle.  Each field gives the outcome of one network
exchange of auth.rs (`Option.none` = the exchange fails):

- `client_credentials_flow` : `client_credentials_flow::perform` given
  (client id, secret), returning (access token, resulting `expires_on`);
- `refresh_exchange` : `refresh_token::exchange` given the refresh token,
  returning (access token, refresh token, resulting `expires_on`);
- `device_code_flow` : the whole interactive device-code flow of
  `Auth::with_service` (start + polling loop), returning
  (access token, refresh token, resulting `expires_on`). -/
structure IdP where
  client_credentials_flow : String → String → Option (String × Int)
  refresh_exchange : String → Option (String × String × Int)
  device_code_flow : Option (String × String × Int)

/-- Model of `Auth::new_without_auth` (auth.rs lines 64-70): client id
"development", `TokenType::None`, expiry one year from now (seconds). -/
def new_without_auth (now : Int) : Auth :=
  { client_id := "development"
    token := TokenType.none
    expires_on := now + 60 * 60 * 24 * 365 }

/-- Model of `Auth::with_client_secret` (auth.rs lines 97-121): run the
client-credentials exchange; on success the new credential keeps the secret
and carries the fresh access token and expiry. -/
def with_client_secret (idp : IdP) (config : Config) (client_secret : String) :
    Option Auth :=
  (idp.client_credentials_flow config.client_id client_secret).map fun r =>
    { client_id := config.client_id
      token := TokenType.clientCredentials r.1 client_secret
      expires_on := r.2 }

/-- Model of `Auth::with_service` (auth.rs lines 125-169): run the interactive
device-code flow. -/
def with_service (idp : IdP) (config : Config) : Option Auth :=
  idp.device_code_flow.map fun r =>
    { client_id := config.client_id
      token := TokenType.deviceCode r.1 r.2.1
      expires_on := r.2.2 }

/-- Model of `Auth::refresh_device_code` (auth.rs lines 172-200).  The second
component counts identity-provider exchanges performed (the client-id check
fails before any network call). -/
def refresh_device_code (idp : IdP) (config : Config) (a : Auth)
    (refresh_tok : String) : Option Auth × Nat :=
  if a.client_id ≠ config.client_id then (Option.none, 0)
  else
    ((idp.refresh_exchange refresh_tok).map fun r =>
      { client_id := config.client_id
        token := TokenType.deviceCode r.1 r.2.1
        expires_on := r.2.2 }, 1)

/-- The assignment performed by `Auth::refresh_token` on success
(auth.rs lines 207-208 and 219-220): `self.token = token.token;
self.expires_on = token.expires_on;` — the stored `client_id` is untouched. -/
def set_refreshed (a t : Auth) : Auth :=
  { a with token := t.token, expires_on := t.expires_on }

/-- Model of `Auth::refresh_token` (auth.rs lines 203-226).  Returns the
refreshed credential (`Option.none` = the error propagated to the caller)
and the number of identity-provider exchanges performed.  The `DeviceCode`
arm falls back to the full device-code flow when the refresh-token exchange
fails; the `None` arm does nothing. -/
def refresh_token (idp : IdP) (config : Config) (a : Auth) : Option Auth × Nat :=
  match a.token with
  | TokenType.clientCredentials _ secret =>
    ((with_client_secret idp config secret).map (set_refreshed a), 1)
  | TokenType.deviceCode _ rt =>
    let r := refresh_device_code idp config a rt
    match r.1 with
    | some t => (some (set_refreshed a t), r.2)
    | Option.none => ((with_service idp config).map (set_refreshed a), r.2 + 1)
  | TokenType.none => (some a, 0)

/-- The token returned by the final `match` of `Auth::get_token`
(auth.rs lines 234-238). -/
def token_of (a : Auth) : Option String :=
  match a.token with
  | TokenType.clientCredentials t _ => some t
  | TokenType.deviceCode t _ => some t
  | TokenType.none => Option.none

/-- Model of `Auth::get_token` (auth.rs lines 229-239): refresh exactly when
`self.expires_on < now`, then return the embedded token.  Result components:
the outcome (`Option.none` = refresh error propagated; otherwise the updated
credential and the optional bearer token), the number of calls to
`refresh_token`, and the number of identity-provider exchanges. -/
def get_token (idp : IdP) (config : Config) (a : Auth) (now : Int) :
    Option (Auth × Option String) × Nat × Nat :=
  if a.expires_on < now then
    let r := refresh_token idp config a
    match r.1 with
    | some a2 => (some (a2, token_of a2), 1, r.2)
    | Option.none => (Option.none, 1, r.2)
  else (some (a, token_of a), 0, 0)

/-- Model of `Auth::new_from_cache` (auth.rs lines 73-82): adopt the cached
credential only when its client id matches the configuration (a failed cache
read, modelled as `Option.none`, is a cache miss). -/
def new_from_cache (cache : Option Auth) (config : Config) : Option Auth :=
  match cache with
  | some entry =>
    if entry.client_id = config.client_id then some entry else Option.none
  | Option.none => Option.none

/-- Model of `Auth::new_without_cache` (auth.rs lines 85-94): use the
client-credentials exchange when a secret is configured, else the device-code
flow.  The second component counts identity-provider exchanges. -/
def new_without_cache (idp : IdP) (config : Config) : Option Auth × Nat :=
  match config.client_secret with
  | some secret => (with_client_secret idp config secret, 1)
  | Option.none => (with_service idp config, 1)

/-- Side-effect counters for `Auth::new`: credential-cache reads from disk and
identity-provider exchanges. -/
structure Effects where
  cache_reads : Nat
  idp_exchanges : Nat
deriving Repr, DecidableEq

/-- Model of `Auth::new` (auth.rs lines 49-61): when
`config.api_url.to_string()` equals the slashless `LOCAL_DEVELOPMENT_ENDPOINT`
literal, short-circuit to the unauthenticated credential before any cache
read; else the cache is consulted (one disk read) unless `ignore_login_cache`;
else a fresh credential is created. -/
def Auth.new (idp : IdP) (cache : Option Auth) (config : Config) (now : Int) :
    Option Auth × Effects :=
  if config.api_url.to_string = LOCAL_DEVELOPMENT_ENDPOINT then
    (some (new_without_auth now), ⟨0, 0⟩)
  else if config.ignore_login_cache then
    let r := new_without_cache idp config
    (r.1, ⟨0, r.2⟩)
  else
    match new_from_cache cache config with
    | some entry => (some entry, ⟨1, 0⟩)
    | Option.none =>
      let r := new_without_cache idp config
      (r.1, ⟨1, r.2⟩)

/-! ## Job model (src/models/base.rs) -/

/-- Model of `enum ImageState` (base.rs lines 116-133). -/
inductive ImageState where
  | waitingForUpload
  | toQueue
  | queued
  | running
  | finalizing
  | completed
  | failed
  | deleting
deriving Repr, DecidableEq

/-- Model of `struct Image` restricted to the fields read by `images_monitor`
and `images_list`: the analysis state and the optional error message. -/
structure Image where
  state : ImageState
  error : Option String
deriving Repr, DecidableEq

/-! ## Pagination (src/client/mod.rs, `Client::images_list`, lines 190-216) -/

/-- Model of `ImagesListResponse` (models/service.rs lines 54-61): one page of
results plus the optional continuation cursor. -/
structure ImagesListResponse where
  images : List Image
  continuation : Option String
deriving Repr, DecidableEq

/-- Model of the `images_list` stream loop (mod.rs lines 204-215) run against a
server scripted as the list of pages it returns, consumed in order (the
cursor is opaque and passed back verbatim, so page identity is positional).
Per iteration: issue the request, yield every element of the page in order,
copy the page's cursor into the request, and stop exactly when that cursor is
absent.  Returns (yielded elements, number of page requests issued).  The
`[]` case (script exhausted although a cursor demanded another page) is
unreachable for the well-formed scripts considered below. -/
def images_list : List ImagesListResponse → List Image × Nat
  | [] => ([], 0)
  | page :: rest =>
    match page.continuation with
    | some _ =>
      let r := images_list rest
      (page.images ++ r.1, r.2 + 1)
    | Option.none => (page.images, 1)

/-- A server script that answers every request the client will make: every
page except the last carries a cursor, and the last page carries none. -/
def wellFormedScript : List ImagesListResponse → Bool
  | [] => false
  | [page] => page.continuation.isNone
  | page :: rest => page.continuation.isSome && wellFormedScript rest

/-! ## Job monitor (src/client/mod.rs, `Client::images_monitor`, lines 525-562) -/

/-- Outcome of `images_monitor`: the final `Completed` snapshot, the
`Error::AnalysisFailed` message, or a failed poll (script exhausted: in the
source this is a propagated transport error from `images_get`). -/
inductive MonitorResult where
  | ok (image : Image)
  | analysisFailed (message : String)
  | pollError
deriving Repr, DecidableEq

/-- Model of the `loop` of `images_monitor` (mod.rs lines 533-560).  `image` is
the snapshot fetched by the most recent poll, `prev` the state seen by the
poll before it (initially the `Completed` sentinel), and `script` the states
the remaining polls will observe.  Returns (outcome, number of further
`images_get` polls issued, number of state-change notices logged — the
`info!` calls, including the final "analysis completed" one). -/
def monitorLoop (image : Image) (prev : ImageState) (script : List Image) :
    MonitorResult × Nat × Nat :=
  if image.state = prev then
    match script with
    | [] => (MonitorResult.pollError, 1, 0)
    | i :: rest =>
      let r := monitorLoop i image.state rest
      (r.1, r.2.1 + 1, r.2.2)
  else
    match image.state with
    | ImageState.completed => (MonitorResult.ok image, 0, 1)
    | ImageState.failed =>
      match image.error with
      | some e => (MonitorResult.analysisFailed e, 0, 0)
      | Option.none => (MonitorResult.analysisFailed "unknown error", 0, 0)
    | _ =>
      match script with
      | [] => (MonitorResult.pollError, 1, 1)
      | i :: rest =>
        let r := monitorLoop i image.state rest
        (r.1, r.2.1 + 1, r.2.2 + 1)

/-- Model of `images_monitor` (mod.rs lines 525-562) run against the scripted
sequence of snapshots successive `images_get` polls return.  The first poll
happens before the loop; a `Completed` first snapshot returns immediately;
otherwise the loop starts with `prev_state = Completed` (the sentinel that
forces the first notice).  Returns (outcome, total polls, notices logged). -/
def images_monitor (script : List Image) : MonitorResult × Nat × Nat :=
  match script with
  | [] => (MonitorResult.pollError, 1, 0)
  | image :: rest =>
    if image.state = ImageState.completed then (MonitorResult.ok image, 1, 0)
    else
      let r := monitorLoop image ImageState.completed rest
      (r.1, r.2.1 + 1, r.2.2)

/-! ## Transport response classification
(src/client/backend/mod.rs, `Backend::execute_raw`, lines 93-105) -/

/-- An HTTP response as classified by `execute_raw`: final status code and
body (the body bytes modelled as a string, matching the
`String::from_utf8_lossy` conversion on the 451 path). -/
structure HttpResponse where
  status : Nat
  body : String
deriving Repr, DecidableEq

/-- Outcome of `execute_raw` after the response arrives: success bytes, the
dedicated `Error::Eula` variant, or the generic status error produced by
`reqwest::Response::error_for_status`. -/
inductive ExecResult where
  | ok (body : String)
  | eula (terms : String)
  | status_error (status : Nat) (body : String)
deriving Repr, DecidableEq

/-- `reqwest::Response::error_for_status` fails exactly on client-error (4xx)
and server-error (5xx) statuses. -/
def error_for_status (status : Nat) : Bool :=
  (400 ≤ status && status ≤ 499) || (500 ≤ status && status ≤ 599)

/-- Model of the response-classification tail of `Backend::execute_raw`
(mod.rs lines 95-104): status 451 (`UNAVAILABLE_FOR_LEGAL_REASONS`) becomes
`Error::Eula` carrying the body; then `error_for_status` turns 4xx/5xx into
the generic error; anything else returns the body. -/
def execute_raw (res : HttpResponse) : ExecResult :=
  if res.status = 451 then ExecResult.eula res.body
  else if error_for_status res.status then ExecResult.status_error res.status res.body
  else ExecResult.ok res.body

/-! ## Blob upload block sizing
(src/client/backend/azure_blobs.rs, `blob_upload`, lines 16-54) -/

/-- The block size computed by `blob_upload` (azure_blobs.rs line 23):
`std::cmp::max(1024 * 1024 * 10, size / 50_000)` in `u64` arithmetic. -/
def block_size (size : Nat) : Nat :=
  max (1024 * 1024 * 10) (size / 50000)

/-- The read loop of `blob_upload` (azure_blobs.rs lines 36-54): each
iteration reads up to `bs` bytes and uploads one block; a read of zero bytes
ends the loop.  Counts the blocks uploaded for a file of `remaining` bytes. -/
def uploadLoop (bs : Nat) (hbs : 0 < bs) (remaining : Nat) : Nat :=
  if h : remaining = 0 then 0
  else 1 + uploadLoop bs hbs (remaining - bs)
termination_by remaining
decreasing_by simp_wf; omega

/-- Number of blocks `blob_upload` stages and commits for a file of `size`
bytes. -/
def upload_block_count (size : Nat) : Nat :=
  uploadLoop (block_size size)
    (Nat.lt_of_lt_of_le (by norm_num) (Nat.le_max_left (1024 * 1024 * 10) (size / 50000)))
    size

/-! ## Constant-time comparison (examples/webhook-receiver.rs, lines 84-95) -/

/-- Model of `compare` (webhook-receiver.rs): strings as byte lists; unequal
lengths return `false` immediately, else OR together the XOR of each byte
pair and test for zero. -/
def compare (a b : List Nat) : Bool :=
  if a.length ≠ b.length then false
  else ((a.zip b).foldl (fun result p => result ||| (p.1 ^^^ p.2)) 0) == 0

/-! ## Config::save and the login cache
(src/client/config.rs lines 192-199; src/client/backend/auth.rs lines 257-263) -/

/-- The two files in the per-user config directory that the client touches:
`cli.config` and `login.cache`; `Option.none` = the file is absent. -/
structure FileSystem where
  cli_config : Option String
  login_cache : Option String
deriving Repr, DecidableEq

/-- Model of `Auth::logout` (auth.rs lines 257-263): delete `login.cache` if
it exists (absent afterwards either way). -/
def auth_logout (fs : FileSystem) : FileSystem :=
  { fs with login_cache := Option.none }

/-- Model of the successful path of `Config::save` (config.rs lines 192-199):
overwrite `cli.config` with the serialized configuration (`contents`), then
`Backend::logout()`, which is `Auth::logout`. -/
def config_save (contents : String) (fs : FileSystem) : FileSystem :=
  auth_logout { fs with cli_config := some contents }

/-! ## Concrete instances used by counterexamples and witnesses -/

/-- An identity provider whose every exchange succeeds. -/
def idp0 : IdP :=
  { client_credentials_flow := fun _ _ => some ("token-cc", 100)
    refresh_exchange := fun _ => some ("token-dc", "refresh-dc", 100)
    device_code_flow := some ("token-svc", "refresh-svc", 100) }

/-- An identity provider whose refresh-token exchange fails but whose
device-code flow succeeds, exercising the fallback path of `refresh_token`. -/
def idpFallback : IdP :=
  { client_credentials_flow := fun _ _ => Option.none
    refresh_exchange := fun _ => Option.none
    device_code_flow := some ("token-svc2", "refresh-svc2", 50) }

/-- The parsed public service URL "https://freta.microsoft.com/" (the exact
string `Config::new` writes, slash included). -/
def fretaUrl : Url :=
  { scheme := "https", host := "freta.microsoft.com", port := Option.none,
    path_segments := [""] }

/-- The parsed local-development origin: what `url::Url` holds after parsing
"http://localhost:7071"; it serializes as "http://localhost:7071/". -/
def localDevUrl : Url :=
  { scheme := "http", host := "localhost", port := some 7071,
    path_segments := [""] }

/-- A configuration pointing at the public service endpoint. -/
def config0 : Config :=
  { api_url := fretaUrl
    client_id := "cid"
    tenant_id := "common"
    client_secret := Option.none
    scope := Option.none
    ignore_login_cache := false }

/-- A configuration genuinely pointing at the local-development endpoint. -/
def configLocal : Config :=
  { config0 with api_url := localDevUrl }

/-- A client-credentials credential expiring at time 5. -/
def auth_cc : Auth :=
  { client_id := "cid", token := TokenType.clientCredentials "tok" "sec", expires_on := 5 }

/-- A device-code credential expiring at time 5. -/
def auth_dc : Auth :=
  { client_id := "cid", token := TokenType.deviceCode "tok" "ref", expires_on := 5 }

/-- The credential produced by refreshing `auth_dc` against `idpFallback`
(the refresh-token exchange fails, the device-code flow replaces the pair). -/
def auth_dc2 : Auth :=
  { client_id := "cid", token := TokenType.deviceCode "token-svc2" "refresh-svc2",
    expires_on := 50 }

/-- A three-page server script: two elements plus a cursor, an empty page
with a cursor, then one element and no cursor. -/
def pagesExample : List ImagesListResponse :=
  [ { images := [⟨ImageState.queued, Option.none⟩, ⟨ImageState.running, Option.none⟩],
      continuation := some "cursor-1" }
  , { images := [], continuation := some "cursor-2" }
  , { images := [⟨ImageState.completed, Option.none⟩], continuation := Option.none } ]


/-! ## Helper lemmas -/

/-- Closed form for the upload read loop: the number of blocks is the ceiling
of `remaining / bs`. -/
theorem uploadLoop_eq (bs : Nat) (hbs : 0 < bs) :
    ∀ remaining, uploadLoop bs hbs remaining = (remaining + bs - 1) / bs := by
  intro remaining
  induction remaining using Nat.strong_induction_on with
  | _ r ih =>
    rw [uploadLoop]
    split
    · rename_i hr
      subst hr
      exact (Nat.div_eq_of_lt (by omega)).symm
    · rename_i hr
      rw [ih (r - bs) (by omega)]
      rcases le_or_lt bs r with h | h
      · have e1 : r - bs + bs - 1 = r - 1 := by omega
        have e2 : r + bs - 1 = r - 1 + bs := by omega
        rw [e1, e2, Nat.add_div_right _ hbs]
        omega
      · have e1 : r - bs = 0 := by omega
        rw [e1]
        rw [Nat.div_eq_of_lt (show 0 + bs - 1 < bs by omega)]
        rw [@Nat.div_eq_of_lt_le 1 bs (r + bs - 1) (by omega) (by omega)]

/-- Closed form for `upload_block_count`: the ceiling of `size / block_size`. -/
theorem upload_block_count_eq (size : Nat) :
    upload_block_count size = (size + block_size size - 1) / block_size size :=
  uploadLoop_eq _ _ size

/-! ## Claim theorems -/

/-- C1 (amended): `get_token` performs a refresh attempt exactly when
`expires_on < now` holds strictly; whenever `now ≤ expires_on` — including
the boundary `now = expires_on` — it performs no refresh attempt and no
identity-provider exchange. -/
theorem get_token_refresh_iff_strictly_expired (idp : IdP) (config : Config)
    (a : Auth) (now : Int) :
    ((get_token idp config a now).2.1 = if a.expires_on < now then 1 else 0) ∧
    (now ≤ a.expires_on → (get_token idp config a now).2 = (0, 0)) := by
  constructor
  · by_cases h : a.expires_on < now
    · cases hr : (refresh_token idp config a).1 <;> simp [get_token, h, hr]
    · simp [get_token, h]
  · intro hle
    have h : ¬ a.expires_on < now := by omega
    simp [get_token, h]

/-- C1 witness: for a credential expiring at 5 queried at time 3, no refresh
attempt and no exchange happen. -/
theorem get_token_refresh_iff_strictly_expired_witness :
    (3 : Int) ≤ auth_cc.expires_on ∧ (get_token idp0 config0 auth_cc 3).2 = (0, 0) :=
  ⟨by decide, (get_token_refresh_iff_strictly_expired idp0 config0 auth_cc 3).2 (by decide)⟩

/-- C1 counterexample: at `now = expires_on` (so `now ≥ expires_on` as the
claim reads), `get_token` performs zero refresh attempts, not exactly one. -/
theorem get_token_boundary_counterexample :
    auth_cc.expires_on ≤ 5 ∧ (5 : Int) ≤ auth_cc.expires_on ∧
    (get_token idp0 config0 auth_cc 5).2.1 = 0 ∧
    (get_token idp0 config0 auth_cc 5).2.1 ≠ 1 := by decide

/-- Helper for C2: WHATWG serialization can never produce the slashless
`LOCAL_DEVELOPMENT_ENDPOINT` literal — any serialized URL contains at least
three '/' characters (two in "://" and one starting the path), while the
literal contains two; so the guard at auth.rs line 50 never matches. -/
theorem to_string_ne_local (u : Url) :
    u.to_string ≠ LOCAL_DEVELOPMENT_ENDPOINT := by
  intro h
  have hc := congrArg (fun s => s.data.count '/') h
  have h2 : (LOCAL_DEVELOPMENT_ENDPOINT.data.count '/') = 2 := by decide
  have h3 : ("://" : String).data.count '/' = 2 := by decide
  have h4 : ("/" : String).data.count '/' = 1 := by decide
  simp only [Url.to_string, String.data_append, List.count_append] at hc
  rw [h2, h3, h4] at hc
  omega

/-- C2 (code evaluation at the failing input): the local-development guard of
`Auth::new` is dead code.  `Url::to_string` always serializes the parsed
local-development origin with a trailing slash, never equal to the slashless
`LOCAL_DEVELOPMENT_ENDPOINT` literal, so a configuration genuinely pointing
at http://localhost:7071 falls through: `Auth::new` reads the cache, runs the
device-code flow, and the resulting credential's `get_token` returns a real
token — not the unauthenticated credential and "no token" the claim (and the
spec) require. -/
theorem local_endpoint_guard_unreachable :
    (∀ u : Url, u.to_string ≠ LOCAL_DEVELOPMENT_ENDPOINT) ∧
    configLocal.api_url.to_string = "http://localhost:7071/" ∧
    Auth.new idp0 Option.none configLocal 0 =
      (some { client_id := "cid",
              token := TokenType.deviceCode "token-svc" "refresh-svc",
              expires_on := 100 }, ⟨1, 1⟩) ∧
    (Auth.new idp0 Option.none configLocal 0).1 ≠ some (new_without_auth 0) ∧
    (get_token idp0 configLocal
      { client_id := "cid", token := TokenType.deviceCode "token-svc" "refresh-svc",
        expires_on := 100 } 0).1 =
      some ({ client_id := "cid",
              token := TokenType.deviceCode "token-svc" "refresh-svc",
              expires_on := 100 }, some "token-svc") := by
  refine ⟨to_string_ne_local, by decide, by decide, by decide, by decide⟩

/-- C4: on the scripted poll sequence [Queued, Running, Running, Completed],
`images_monitor` issues exactly 4 polls, logs exactly 3 state-change notices,
and returns the final Completed snapshot. -/
theorem monitor_scripted_four_polls :
    images_monitor [⟨ImageState.queued, Option.none⟩, ⟨ImageState.running, Option.none⟩,
      ⟨ImageState.running, Option.none⟩, ⟨ImageState.completed, Option.none⟩] =
    (MonitorResult.ok ⟨ImageState.completed, Option.none⟩, 4, 3) := by decide

/-- C6 (amended): status 451 is mapped to the `Eula` error carrying the body,
and only status 451 is; every other 4xx/5xx status yields the generic status
error; statuses outside 400-599 (1xx/3xx, besides 2xx) are returned as
success bytes, not as the generic failure. -/
theorem eula_status_classification (res : HttpResponse) :
    (execute_raw res = ExecResult.eula res.body ↔ res.status = 451) ∧
    (res.status ≠ 451 → 400 ≤ res.status → res.status ≤ 599 →
      execute_raw res = ExecResult.status_error res.status res.body) ∧
    (res.status < 400 ∨ 599 < res.status →
      execute_raw res = ExecResult.ok res.body) := by
  by_cases h451 : res.status = 451
  · refine ⟨⟨fun _ => h451, fun _ => ?_⟩, fun hne => absurd h451 hne, fun hout => ?_⟩
    · simp [execute_raw, h451]
    · omega
  · have hiff : execute_raw res = ExecResult.eula res.body ↔ False := by
      simp only [execute_raw, if_neg h451]
      split <;> simp
    refine ⟨⟨fun hc => (hiff.mp hc).elim, fun hs => absurd hs h451⟩,
      fun _ h4 h5 => ?_, fun hout => ?_⟩
    · have he : error_for_status res.status = true := by
        simp only [error_for_status, Bool.or_eq_true, Bool.and_eq_true,
          decide_eq_true_eq]
        omega
      simp [execute_raw, if_neg h451, he]
    · have h451b : res.status ≠ 451 := by omega
      have he : error_for_status res.status = false := by
        simp only [error_for_status, Bool.or_eq_false_iff, Bool.and_eq_false_iff,
          decide_eq_false_iff_not]
        omega
      simp [execute_raw, if_neg h451b, he]

/-- C6 witness: a 503 response yields the generic status error. -/
theorem eula_status_classification_witness :
    execute_raw ⟨503, "oops"⟩ = ExecResult.status_error 503 "oops" :=
  (eula_status_classification ⟨503, "oops"⟩).2.1 (by decide) (by decide) (by decide)

/-- C6 counterexample: 304 is not a 2xx status and is not 451, yet
`execute_raw` returns success bytes rather than the generic status error. -/
theorem eula_status_counterexample :
    ¬ (200 ≤ (304 : Nat) ∧ (304 : Nat) ≤ 299) ∧ (304 : Nat) ≠ 451 ∧
    execute_raw ⟨304, "not modified"⟩ = ExecResult.ok "not modified" ∧
    execute_raw ⟨304, "not modified"⟩ ≠ ExecResult.status_error 304 "not modified" := by
  decide

/-- C8: evaluation of `blob_upload` block sizing at the failing input.  For a
file of 50000 * 10 MiB + 1 bytes the computed block size is 10 MiB (floor
division) and the loop uploads 50001 blocks, exceeding the 50000-block
storage limit the sizing is meant to respect; for a 1 GiB file the block
size is 10 MiB and the count is 103 (within the limit, as the claim says). -/
theorem blob_upload_block_count_overflow :
    block_size 524288000001 = 1024 * 1024 * 10 ∧
    upload_block_count 524288000001 = 50001 ∧
    50000 < upload_block_count 524288000001 ∧
    block_size (1024 * 1024 * 1024) = 1024 * 1024 * 10 ∧
    1024 * 1024 * 10 ≤ block_size (1024 * 1024 * 1024) ∧
    upload_block_count (1024 * 1024 * 1024) = 103 ∧
    upload_block_count (1024 * 1024 * 1024) ≤ 50000 := by
  have h1 := upload_block_count_eq 524288000001
  have h2 := upload_block_count_eq (1024 * 1024 * 1024)
  rw [show block_size 524288000001 = 1024 * 1024 * 10 from by decide] at h1
  rw [show block_size (1024 * 1024 * 1024) = 1024 * 1024 * 10 from by decide] at h2
  refine ⟨by decide, ?_, ?_, by decide, by decide, ?_, ?_⟩
  · rw [h1]
  · rw [h1]; decide
  · rw [h2]
  · rw [h2]; decide

/-- C10: a successful `Config::save` overwrites the configuration file and
deletes the cached credential file, so the login cache is absent afterwards. -/
theorem config_save_clears_login_cache (contents : String) (fs : FileSystem) :
    (config_save contents fs).login_cache = Option.none ∧
    (config_save contents fs).cli_config = some contents :=
  ⟨rfl, rfl⟩

/-- Helper for C3: on a well-formed script the pagination loop yields the
concatenation of all pages in order and issues one request per page. -/
theorem images_list_wf :
    ∀ script, wellFormedScript script = true →
      images_list script = ((script.map ImagesListResponse.images).flatten, script.length) := by
  intro script
  induction script with
  | nil => intro h; simp [wellFormedScript] at h
  | cons page rest ih =>
    obtain ⟨imgs, cont⟩ := page
    intro h
    cases rest with
    | nil =>
      cases cont with
      | some c => simp [wellFormedScript] at h
      | none => simp [images_list]
    | cons q rest2 =>
      cases cont with
      | none => simp [wellFormedScript] at h
      | some c =>
        have h2 : wellFormedScript (q :: rest2) = true := by
          simpa [wellFormedScript] using h
        show (imgs ++ (images_list (q :: rest2)).1, (images_list (q :: rest2)).2 + 1) =
          ((List.map ImagesListResponse.images
            (⟨imgs, some c⟩ :: q :: rest2)).flatten, (⟨imgs, some c⟩ :: q :: rest2).length)
        rw [ih h2]
        simp

/-- C3: the paginated listing yields exactly the concatenation of the pages'
elements in server order with one request per page; a page with no cursor
ends the sequence after its elements; a page with zero elements but a cursor
continues paging. -/
theorem images_list_pagination :
    (∀ script, wellFormedScript script = true →
      images_list script = ((script.map ImagesListResponse.images).flatten, script.length)) ∧
    (∀ (page : ImagesListResponse) (rest : List ImagesListResponse),
      page.continuation = Option.none →
      images_list (page :: rest) = (page.images, 1)) ∧
    (∀ (page : ImagesListResponse) (rest : List ImagesListResponse) (c : String),
      page.continuation = some c → page.images = [] →
      images_list (page :: rest) = ((images_list rest).1, (images_list rest).2 + 1)) := by
  refine ⟨images_list_wf, ?_, ?_⟩
  · intro page rest hc
    simp [images_list, hc]
  · intro page rest c hc hi
    simp [images_list, hc, hi]

/-- C3 witness: a three-page script (two elements + cursor, an empty page +
cursor, one element + no cursor) yields all three elements in order in three
requests. -/
theorem images_list_pagination_witness :
    wellFormedScript pagesExample = true ∧
    images_list pagesExample =
      ((pagesExample.map ImagesListResponse.images).flatten, pagesExample.length) :=
  ⟨by decide, images_list_pagination.1 pagesExample (by decide)⟩

/-- Helper for C5: a polled snapshot in the Failed state makes the monitor
loop return `AnalysisFailed` with the snapshot's error message field, or
"unknown error" when absent, provided the previous state differs. -/
theorem monitorLoop_failed (err : Option String) (prev : ImageState)
    (hprev : prev ≠ ImageState.failed) (script : List Image) :
    (monitorLoop ⟨ImageState.failed, err⟩ prev script).1 =
      MonitorResult.analysisFailed (err.getD "unknown error") := by
  rw [monitorLoop.eq_def]
  rw [if_neg (show ¬ (Image.state ⟨ImageState.failed, err⟩ = prev) from
    fun hh => hprev hh.symm)]
  cases err <;> rfl

/-- Helper for C5: if every snapshot polled before the Failed one is neither
Failed nor Completed, the loop reaches the Failed snapshot and returns its
message. -/
theorem monitorLoop_reaches_failed :
    ∀ (pre : List Image) (image : Image) (prev : ImageState)
      (err : Option String) (rest : List Image),
      image.state ≠ ImageState.failed → image.state ≠ ImageState.completed →
      (∀ i ∈ pre, i.state ≠ ImageState.failed ∧ i.state ≠ ImageState.completed) →
      (monitorLoop image prev (pre ++ ⟨ImageState.failed, err⟩ :: rest)).1 =
        MonitorResult.analysisFailed (err.getD "unknown error") := by
  intro pre
  induction pre with
  | nil =>
    rintro ⟨st, er⟩ prev err rest hf hc hall
    rw [monitorLoop.eq_def]
    cases st
    case failed => exact absurd rfl hf
    case completed => exact absurd rfl hc
    all_goals split <;> exact monitorLoop_failed err _ (by simp) rest
  | cons j pre2 ih =>
    rintro ⟨st, er⟩ prev err rest hf hc hall
    have hj1 : j.state ≠ ImageState.failed := (hall j (by simp)).1
    have hj2 : j.state ≠ ImageState.completed := (hall j (by simp)).2
    have hrest : ∀ i ∈ pre2, i.state ≠ ImageState.failed ∧ i.state ≠ ImageState.completed :=
      fun i hi => hall i (by simp [hi])
    rw [monitorLoop.eq_def]
    cases st
    case failed => exact absurd rfl hf
    case completed => exact absurd rfl hc
    all_goals split <;> exact ih j _ err rest hj1 hj2 hrest

/-- C5: whenever the monitor observes a Failed snapshot (every earlier polled
snapshot being neither Failed nor Completed, else the run would have ended
before observing it), it returns `AnalysisFailed` whose message is the
snapshot's error field verbatim when present, else "unknown error". -/
theorem monitor_failed_message (pre : List Image) (err : Option String)
    (rest : List Image)
    (hpre : ∀ i ∈ pre, i.state ≠ ImageState.failed ∧ i.state ≠ ImageState.completed) :
    (images_monitor (pre ++ ⟨ImageState.failed, err⟩ :: rest)).1 =
      MonitorResult.analysisFailed (err.getD "unknown error") := by
  cases pre with
  | nil =>
    simp only [List.nil_append, images_monitor]
    rw [if_neg (by decide)]
    exact monitorLoop_failed err ImageState.completed (by decide) rest
  | cons j pre2 =>
    simp only [List.cons_append, images_monitor]
    rw [if_neg (hpre j (by simp)).2]
    exact monitorLoop_reaches_failed pre2 j ImageState.completed err rest
      (hpre j (by simp)).1 (hpre j (by simp)).2 (fun i hi => hpre i (by simp [hi]))

/-- C5 witness: the scripted run [Queued, Failed with error "boom"] fails with
message "boom". -/
theorem monitor_failed_message_witness :
    (∀ i ∈ [(⟨ImageState.queued, Option.none⟩ : Image)],
      i.state ≠ ImageState.failed ∧ i.state ≠ ImageState.completed) ∧
    (images_monitor [⟨ImageState.queued, Option.none⟩,
      ⟨ImageState.failed, some "boom"⟩]).1 = MonitorResult.analysisFailed "boom" :=
  ⟨by decide,
    monitor_failed_message [⟨ImageState.queued, Option.none⟩] (some "boom") [] (by decide)⟩

/-- C7: a successful `refresh_token` preserves the credential's variant —
client-credentials stays client-credentials, device-code stays device-code
(also through the fallback to the full interactive flow), unauthenticated
stays unauthenticated — and the stored client id is unchanged. -/
theorem refresh_preserves_variant (idp : IdP) (config : Config) (a a2 : Auth)
    (h : (refresh_token idp config a).1 = some a2) :
    a2.token.variant = a.token.variant ∧ a2.client_id = a.client_id := by
  cases ha : a.token with
  | clientCredentials t s =>
    simp only [refresh_token, ha] at h
    cases hw : idp.client_credentials_flow config.client_id s with
    | none => simp [with_client_secret, hw] at h
    | some r =>
      simp [with_client_secret, hw, set_refreshed] at h
      subst h
      simp [set_refreshed, TokenType.variant, ha]
  | deviceCode t rt =>
    by_cases hcid : a.client_id = config.client_id
    · cases hx : idp.refresh_exchange rt with
      | some r =>
        simp [refresh_token, ha, refresh_device_code, hcid, hx, set_refreshed] at h
        subst h
        simp [TokenType.variant, ha, hcid]
      | none =>
        cases hd : idp.device_code_flow with
        | none => simp [refresh_token, ha, refresh_device_code, hcid, hx,
            with_service, hd] at h
        | some d =>
          simp [refresh_token, ha, refresh_device_code, hcid, hx,
            with_service, hd, set_refreshed] at h
          subst h
          simp [TokenType.variant, ha, hcid]
    · cases hd : idp.device_code_flow with
      | none => simp [refresh_token, ha, refresh_device_code, hcid,
          with_service, hd] at h
      | some d =>
        simp [refresh_token, ha, refresh_device_code, hcid,
          with_service, hd, set_refreshed] at h
        subst h
        simp [TokenType.variant, ha, hcid]
  | none =>
    simp only [refresh_token, ha] at h
    cases h
    simp [ha]

/-- C7 witness: refreshing a device-code credential against a provider whose
refresh-token exchange fails exercises the fallback interactive flow and
still yields a device-code credential with the same client id. -/
theorem refresh_preserves_variant_witness :
    (refresh_token idpFallback config0 auth_dc).1 = some auth_dc2 ∧
    auth_dc2.token.variant = auth_dc.token.variant ∧
    auth_dc2.client_id = auth_dc.client_id :=
  ⟨by decide, refresh_preserves_variant idpFallback config0 auth_dc auth_dc2 (by decide)⟩

/-- Helper for C9: a bitwise OR of naturals is zero exactly when both are. -/
theorem lor_eq_zero_iff (a b : Nat) : a ||| b = 0 ↔ a = 0 ∧ b = 0 := by
  constructor
  · intro h
    have hb : ∀ i, a.testBit i = false ∧ b.testBit i = false := by
      intro i
      have hh := congrArg (fun n => n.testBit i) h
      simp only [Nat.testBit_or, Nat.zero_testBit] at hh
      exact ⟨(Bool.or_eq_false_iff.mp hh).1, (Bool.or_eq_false_iff.mp hh).2⟩
    constructor
    · exact Nat.eq_of_testBit_eq fun i => by simp [(hb i).1]
    · exact Nat.eq_of_testBit_eq fun i => by simp [(hb i).2]
  · rintro ⟨rfl, rfl⟩
    rfl

/-- Helper for C9: the OR-accumulating fold is zero exactly when the
accumulator is zero and every pair XORs to zero, i.e. is equal. -/
theorem foldl_or_eq_zero (l : List (Nat × Nat)) :
    ∀ r : Nat, (l.foldl (fun result p => result ||| (p.1 ^^^ p.2)) r = 0 ↔
      (r = 0 ∧ ∀ p ∈ l, p.1 = p.2)) := by
  induction l with
  | nil => intro r; simp
  | cons hd tl ih =>
    intro r
    rw [List.foldl_cons, ih, lor_eq_zero_iff, Nat.xor_eq_zero]
    simp only [List.forall_mem_cons]
    tauto

/-- Helper for C9: equal-length lists are equal exactly when every zipped
pair is equal. -/
theorem zip_forall_eq :
    ∀ (a b : List Nat), a.length = b.length →
      ((∀ p ∈ a.zip b, p.1 = p.2) ↔ a = b) := by
  intro a
  induction a with
  | nil =>
    intro b h
    cases b with
    | nil => simp
    | cons y ys => simp at h
  | cons x xs ih =>
    intro b h
    cases b with
    | nil => simp at h
    | cons y ys =>
      have hl : xs.length = ys.length := by simpa using h
      simp only [List.zip_cons_cons, List.forall_mem_cons]
      rw [ih ys hl]
      constructor
      · rintro ⟨h1, h2⟩
        simp [h1, h2]
      · intro he
        injection he with h1 h2
        exact ⟨h1, by rw [h2]⟩

/-- C9: the constant-time comparison returns true exactly on equal byte
strings; unequal lengths (the zip never reads past either end) return false,
as the three concrete examples ("abcd"/"abcd", "abcd"/"abce", "abc"/"abcd")
show. -/
theorem compare_eq_iff :
    (∀ a b : List Nat, compare a b = true ↔ a = b) ∧
    compare [97, 98, 99, 100] [97, 98, 99, 100] = true ∧
    compare [97, 98, 99, 100] [97, 98, 99, 101] = false ∧
    compare [97, 98, 99] [97, 98, 99, 100] = false := by
  refine ⟨?_, by decide, by decide, by decide⟩
  intro a b
  by_cases h : a.length = b.length
  · rw [compare, if_neg (by simpa using h), beq_iff_eq, foldl_or_eq_zero]
    rw [zip_forall_eq a b h]
    simp
  · rw [compare, if_pos h]
    constructor
    · intro hh
      exact absurd hh (by simp)
    · intro he
      exact absurd (congrArg List.length he) h

end Freta
